import Mathlib

/-!
Shallow embedding of `src/lib.rs` of mesalock-linux/realbox: the
allocator-parameterized single-value box `RealBox<T, A>`.

Modelling conventions:
* A Rust type parameter `T` is represented by its layout data `Ty`
  (`mem::size_of::<T>()` and `mem::align_of::<T>()`).
* Addresses are natural numbers; the null pointer is address `0`.
* An allocator (the `core::alloc::Alloc` capability) is represented by its
  response behaviour: for each layout, what `alloc` and `alloc_zeroed`
  return (`some` address on success, `none` on allocation failure).
* Each operation of the crate is instrumented with the list of observable
  events it issues (allocator calls and destructor runs), so that claims
  such as "never invokes the allocator" or "deallocate is issued exactly
  once" are statements about event traces.
* `handle_alloc_error` (process termination) and a `Layout` unwrap failure
  are terminal outcomes of construction, represented in `Outcome`.
-/

namespace Realbox

/-- A layout descriptor, `alloc::alloc::Layout`: a size and an alignment. -/
structure Layout where
  size : Nat
  align : Nat
deriving DecidableEq, Repr

/-- usize::MAX on a 64-bit target. -/
def usizeMax : Nat := 2 ^ 64 - 1

/-- Executable power-of-two test (`Layout` requires a power-of-two
alignment): nonzero and no two bits set. -/
def isPow2 (n : Nat) : Bool :=
  n != 0 && (n &&& (n - 1)) == 0

/-- `Layout::from_size_align(size, align)`: succeeds iff `align` is a power of
two and `size`, rounded up to a multiple of `align`, does not overflow
`usize`; returns the layout on success and an error (`none`) otherwise. -/
def Layout.from_size_align (size align : Nat) : Option Layout :=
  if isPow2 align && size + (align - 1) ≤ usizeMax then some ⟨size, align⟩ else none

/-- `Layout::from_size_align_unchecked(size, align)`: no validity check. -/
def Layout.from_size_align_unchecked (size align : Nat) : Layout := ⟨size, align⟩

/-- The layout data of the Rust type parameter `T`:
`mem::size_of::<T>()` and `mem::align_of::<T>()`. -/
structure Ty where
  size : Nat
  align : Nat
deriving DecidableEq, Repr

/-- `NonNull::<T>::dangling()`: the canonical dangling/sentinel address for a
type, equal to its alignment (never null, never dereferenceable). -/
def danglingAddr (t : Ty) : Nat := t.align

/-- An allocator's response behaviour, the `core::alloc::Alloc` capability:
for a given layout, what `alloc` and `alloc_zeroed` return (`some p` is a
successful allocation at address `p`, `none` is allocation failure).
`dealloc` returns nothing, so it needs no response field; its invocations
are recorded in the event trace. -/
structure Allocator where
  allocFn : Layout → Option Nat
  allocZeroedFn : Layout → Option Nat

/-- Observable events issued by the box: the three allocator operations and
a run of `T`'s own destructor (`drop_in_place`, which the crate itself never
issues, but `Box<T>` teardown does). -/
inductive Event
  | allocCall (l : Layout)
  | allocZeroedCall (l : Layout)
  | deallocCall (addr : Nat) (l : Layout)
  | dropTCall (addr : Nat)
deriving DecidableEq, Repr

/-- Whether an event is a `dealloc` call. -/
def Event.isDealloc : Event → Bool
  | .deallocCall _ _ => true
  | _ => false

/-- Whether an event is a `dealloc` call at address `p`. -/
def Event.isDeallocAt (p : Nat) : Event → Bool
  | .deallocCall q _ => q == p
  | _ => false

/-- Whether an event is a non-zeroed `alloc` call. -/
def Event.isPlainAlloc : Event → Bool
  | .allocCall _ => true
  | _ => false

/-- Whether an event is a run of `T`'s own destructor. -/
def Event.isDropT : Event → Bool
  | .dropTCall _ => true
  | _ => false

/-- `RealBox<T, A>`: the stored address (the `Unique<T>` field `ptr`) and the
stored allocator instance (the field `a`). -/
structure RealBox where
  ptr : Nat
  a : Allocator

/-- Outcome of an operation that can terminate the process:
`ok` returns a value; `layoutErr` is the `.unwrap()` panic on an invalid
layout; `allocError l` is `handle_alloc_error(l)`, immediate process
termination through the platform allocation-failure handler. -/
inductive Outcome (α : Type)
  | ok (val : α)
  | layoutErr
  | allocError (l : Layout)

/-- `Box<T>`: the standard owning-pointer handle, identified by its raw
address (`Box::into_raw` / `Box::from_raw`). -/
structure RustBox where
  raw : Nat
deriving DecidableEq, Repr

/-- `Box<[T]>`: an owned slice buffer, identified by its first-element
address (`as_mut_ptr`) and its element count. -/
structure RustBoxedSlice where
  raw : Nat
  len : Nat
deriving DecidableEq, Repr

namespace RealBox

/-- `fn current_layout(&self) -> Option<Layout>`: always
`Some(Layout::from_size_align_unchecked(size_of::<T>(), align_of::<T>()))`. -/
def current_layout (t : Ty) (_self : RealBox) : Option Layout :=
  some (Layout.from_size_align_unchecked t.size t.align)

/-- `unsafe fn dealloc_buffer(&mut self)`: if `size_of::<T>() != 0` and
`current_layout` is `Some(layout)`, call `self.a.dealloc(self.ptr, layout)`.
Returns the events issued. -/
def dealloc_buffer (t : Ty) (self : RealBox) : List Event :=
  if t.size ≠ 0 then
    match current_layout t self with
    | some layout => [Event.deallocCall self.ptr layout]
    | none => []
  else []

/-- `impl Drop for RealBox`: `fn drop(&mut self) { self.dealloc_buffer() }`.
Returns the events issued by automatic teardown. -/
def drop (t : Ty) (self : RealBox) : List Event :=
  dealloc_buffer t self

/-- `fn allocate_in(zeroed: bool, a: A) -> Self`: the zero-sized fast path
returns `NonNull::dangling()` without touching the allocator; otherwise the
layout is built with `Layout::from_size_align(..).unwrap()` (panic on
error), `alloc_zeroed` or `alloc` is called according to `zeroed`, a success
address is stored, and failure goes to `handle_alloc_error(layout)`.
Returns the outcome and the allocator calls issued. -/
def allocate_in (t : Ty) (zeroed : Bool) (a : Allocator) :
    Outcome RealBox × List Event :=
  if t.size = 0 then
    (Outcome.ok { ptr := danglingAddr t, a := a }, [])
  else
    match Layout.from_size_align t.size t.align with
    | none => (Outcome.layoutErr, [])
    | some layout =>
      if zeroed then
        match a.allocZeroedFn layout with
        | some p => (Outcome.ok { ptr := p, a := a }, [Event.allocZeroedCall layout])
        | none => (Outcome.allocError layout, [Event.allocZeroedCall layout])
      else
        match a.allocFn layout with
        | some p => (Outcome.ok { ptr := p, a := a }, [Event.allocCall layout])
        | none => (Outcome.allocError layout, [Event.allocCall layout])

/-- `pub(crate) fn new_in(a: A) -> Self { RealBox::allocate_in(true, a) }`. -/
def new_in (t : Ty) (a : Allocator) : Outcome RealBox × List Event :=
  allocate_in t true a

/-- `pub fn new() -> Self { Self::new_in(Global) }`; the process-wide
`Global` allocator is modelled as the explicit parameter `g`. -/
def new (t : Ty) (g : Allocator) : Outcome RealBox × List Event :=
  new_in t g

/-- `pub fn new_with_allocator(a: A) -> Self { Self::new_in(a) }`. -/
def new_with_allocator (t : Ty) (a : Allocator) : Outcome RealBox × List Event :=
  new_in t a

/-- `pub unsafe fn into_box(self) -> Box<T>`:
`Box::from_raw(self.ptr())` followed by `mem::forget(self)`. The body makes
no allocator call (empty event list), and the `mem::forget` disarms the
box's own drop glue, which therefore never runs for a converted box. -/
def into_box (self : RealBox) : RustBox × List Event :=
  ({ raw := self.ptr }, [])

/-- `pub unsafe fn from_raw_parts(ptr: *mut T, a: A) -> Self`. -/
def from_raw_parts (p : Nat) (a : Allocator) : RealBox :=
  { ptr := p, a := a }

/-- `pub fn from_box(slice: Box<[T]>) -> Self`:
`RealBox::from_raw_parts(slice.as_mut_ptr(), Global)` followed by
`mem::forget(slice)`. No allocator call is made (empty event list) and the
forget suppresses the source buffer's own teardown. `Global` is the
explicit parameter `g`. -/
def from_box (slice : RustBoxedSlice) (g : Allocator) : RealBox × List Event :=
  (from_raw_parts slice.raw g, [])

end RealBox

/-- Modelled from the spec: teardown of the owning-pointer handle `Box<T>`
(std, outside this repository). Per spec section 4.4/6 the handle is, after
conversion, solely responsible for any destructor invocation and the
eventual deallocation of its address with the single-element layout of `T`;
for a zero-sized `T` no memory is deallocated. -/
def rustBoxDrop (t : Ty) (b : RustBox) : List Event :=
  Event.dropTCall b.raw ::
    (if t.size = 0 then []
     else [Event.deallocCall b.raw (Layout.from_size_align_unchecked t.size t.align)])

/-- Modelled from the spec: the layout an `n`-element `Box<[T]>` buffer was
allocated with by std — `n * size_of::<T>()` bytes at `align_of::<T>()`. -/
def sliceAllocLayout (t : Ty) (n : Nat) : Layout :=
  ⟨n * t.size, t.align⟩

/-- Whole lifetime of a converted box: construct via `new`, convert via
`into_box` (after which `mem::forget` has disarmed the `RealBox` drop glue,
so the box itself contributes no further events), then drop the resulting
`Box<T>`. Returns the final handle and the complete event trace. -/
def lifetime_into_box (t : Ty) (g : Allocator) : Outcome RustBox × List Event :=
  match RealBox.new t g with
  | (Outcome.ok box, es) =>
      let conv := RealBox.into_box box
      (Outcome.ok conv.1, es ++ conv.2 ++ rustBoxDrop t conv.1)
  | (Outcome.layoutErr, es) => (Outcome.layoutErr, es)
  | (Outcome.allocError l, es) => (Outcome.allocError l, es)

/-- `pub fn heap_init<F>(initialize: F) -> Box<T>`, control-flow level:
`Self::new_in(Global).into_box()`, then the initializer runs on the
heap-resident value (no allocator events), and the handle is returned.
Returns the outcome and the complete event trace. -/
def RealBox.heap_init (t : Ty) (g : Allocator) : Outcome RustBox × List Event :=
  match RealBox.new_in t g with
  | (Outcome.ok box, es) =>
      let conv := RealBox.into_box box
      (Outcome.ok conv.1, es ++ conv.2)
  | (Outcome.layoutErr, es) => (Outcome.layoutErr, es)
  | (Outcome.allocError l, es) => (Outcome.allocError l, es)

/-- A byte image: memory contents as a map from byte offset to byte value. -/
abbrev Image := Nat → Nat

/-- The all-zero contents that `alloc_zeroed` hands back (every byte zero,
per the allocator-capability contract): the state of the value at the
moment `heap_init`'s initializer starts running. -/
def zeroAll : Image := fun _ => 0

/-- Write one byte at offset `p`. -/
def writeByte (m : Image) (p v : Nat) : Image :=
  fun i => if i = p then v else m i

/-- Apply a sequence of byte writes in order. An initializer that assigns
known field values is, at the byte level, such a sequence (each field
assignment writes the bytes of its offset range). -/
def applyWrites (ws : List (Nat × Nat)) (m : Image) : Image :=
  ws.foldl (fun m w => writeByte m w.1 w.2) m

/-- The image `heap_init` hands back for a given initializer: the
initializer applied, unmodified and unvalidated, to the zero-filled
allocation. -/
def heap_init_image (ini : Image → Image) : Image :=
  ini zeroAll

/-- The memory image produced by `heap_init` with an initializer that
performs the byte writes `ws`: the writes land on the zero-filled heap
allocation. -/
def heapImageOfWrites (ws : List (Nat × Nat)) : Image :=
  applyWrites ws zeroAll

/-- The memory image of a stack-resident value whose fields are assigned
the same values: the same writes land on the stack slot's pre-existing
(uninitialized, hence arbitrary) bytes `pre`. -/
def stackImageOfWrites (ws : List (Nat × Nat)) (pre : Image) : Image :=
  applyWrites ws pre

/-- Decidable check that the writes `ws` cover every byte offset below `n`. -/
def coversB (ws : List (Nat × Nat)) (n : Nat) : Bool :=
  (List.range n).all fun i => ws.any fun w => w.1 == i

/-- The documented `Alloc` contract for successful allocations: a returned
address is non-null, meets the requested alignment, and points to a
dereferenceable block, hence differs from the never-dereferenceable
dangling address (which equals the alignment). -/
def Allocator.Good (a : Allocator) : Prop :=
  ∀ l q, (a.allocFn l = some q ∨ a.allocZeroedFn l = some q) →
    0 < q ∧ q % l.align = 0 ∧ q ≠ l.align

/-- An allocator that always reports failure. -/
def noneAlloc : Allocator :=
  { allocFn := fun _ => none, allocZeroedFn := fun _ => none }

/-- An allocator that zero-allocates the 4-byte/4-aligned layout at
address 16 and fails everything else. -/
def alloc44 : Allocator :=
  { allocFn := fun _ => none
    allocZeroedFn := fun l => if l = ⟨4, 4⟩ then some 16 else none }

/-- Claim C1: for a zero-sized `T`, every construction entry point (`new`,
`new_with_allocator`, and `allocate_in` with either flag, hence `new_in`)
returns the box whose address is the canonical dangling sentinel for `T`,
issuing no allocator event, and teardown of that box issues no allocator
event either. -/
theorem C1_zst_sentinel_no_alloc (t : Ty) (zeroed : Bool) (a g : Allocator)
    (h : t.size = 0) :
    RealBox.new t g = (Outcome.ok ⟨danglingAddr t, g⟩, []) ∧
    RealBox.new_with_allocator t a = (Outcome.ok ⟨danglingAddr t, a⟩, []) ∧
    RealBox.allocate_in t zeroed a = (Outcome.ok ⟨danglingAddr t, a⟩, []) ∧
    RealBox.drop t ⟨danglingAddr t, a⟩ = [] := by
  refine ⟨?_, ?_, ?_, ?_⟩ <;>
    simp [RealBox.new, RealBox.new_with_allocator, RealBox.new_in,
      RealBox.allocate_in, RealBox.drop, RealBox.dealloc_buffer, h]

/-- Claim C1, witness at the zero-sized type of alignment one. -/
theorem C1_zst_sentinel_no_alloc_witness :
    RealBox.new ⟨0, 1⟩ noneAlloc = (Outcome.ok ⟨danglingAddr ⟨0, 1⟩, noneAlloc⟩, []) ∧
    RealBox.new_with_allocator ⟨0, 1⟩ noneAlloc =
      (Outcome.ok ⟨danglingAddr ⟨0, 1⟩, noneAlloc⟩, []) ∧
    RealBox.allocate_in ⟨0, 1⟩ false noneAlloc =
      (Outcome.ok ⟨danglingAddr ⟨0, 1⟩, noneAlloc⟩, []) ∧
    RealBox.drop ⟨0, 1⟩ ⟨danglingAddr ⟨0, 1⟩, noneAlloc⟩ = [] :=
  C1_zst_sentinel_no_alloc ⟨0, 1⟩ false noneAlloc noneAlloc rfl

/-- Claim C2: for a non-zero-sized `T` under the default allocator, the
whole converted lifetime (construction, `into_box`, teardown of the
resulting `Box<T>`) produces exactly one zeroed allocation followed by the
value's destructor and exactly one deallocation of the stored address;
`into_box` itself contributes no events and the resulting handle carries
the stored address, so `dealloc` is issued exactly once for it. -/
theorem C2_into_box_single_dealloc (t : Ty) (g : Allocator) (p : Nat)
    (h0 : t.size ≠ 0)
    (hl : Layout.from_size_align t.size t.align = some ⟨t.size, t.align⟩)
    (hp : g.allocZeroedFn ⟨t.size, t.align⟩ = some p) :
    lifetime_into_box t g =
      (Outcome.ok ⟨p⟩,
        [Event.allocZeroedCall ⟨t.size, t.align⟩, Event.dropTCall p,
          Event.deallocCall p ⟨t.size, t.align⟩]) ∧
    (lifetime_into_box t g).2.countP (Event.isDeallocAt p) = 1 := by
  have hnew : RealBox.new t g =
      (Outcome.ok ⟨p, g⟩, [Event.allocZeroedCall ⟨t.size, t.align⟩]) := by
    simp [RealBox.new, RealBox.new_in, RealBox.allocate_in, h0, hl, hp]
  have hmain : lifetime_into_box t g =
      (Outcome.ok ⟨p⟩,
        [Event.allocZeroedCall ⟨t.size, t.align⟩, Event.dropTCall p,
          Event.deallocCall p ⟨t.size, t.align⟩]) := by
    simp [lifetime_into_box, hnew, RealBox.into_box, rustBoxDrop, h0,
      Layout.from_size_align_unchecked]
  refine ⟨hmain, ?_⟩
  rw [hmain]
  simp [Event.isDeallocAt, List.countP_cons, List.countP_nil]

/-- Claim C2, witness at a 4-byte 4-aligned type with an allocator placing
the block at address 16. -/
theorem C2_into_box_single_dealloc_witness :
    lifetime_into_box ⟨4, 4⟩ alloc44 =
      (Outcome.ok ⟨16⟩,
        [Event.allocZeroedCall ⟨4, 4⟩, Event.dropTCall 16,
          Event.deallocCall 16 ⟨4, 4⟩]) ∧
    (lifetime_into_box ⟨4, 4⟩ alloc44).2.countP (Event.isDeallocAt 16) = 1 :=
  C2_into_box_single_dealloc ⟨4, 4⟩ alloc44 16 (by decide) (by decide)
    (by simp [alloc44])

/-- Claim C3: for a non-zero-sized `T`, automatic teardown of an
unconverted box issues exactly one `dealloc` call, at the stored address,
with the freshly recomputed single-element layout reported by
`current_layout`, and runs no destructor logic of `T` itself. -/
theorem C3_drop_exact_dealloc (t : Ty) (box : RealBox) (h : t.size ≠ 0) :
    RealBox.drop t box = [Event.deallocCall box.ptr ⟨t.size, t.align⟩] ∧
    RealBox.current_layout t box = some ⟨t.size, t.align⟩ ∧
    (RealBox.drop t box).countP Event.isDealloc = 1 ∧
    (RealBox.drop t box).countP Event.isDropT = 0 := by
  have h1 : RealBox.drop t box = [Event.deallocCall box.ptr ⟨t.size, t.align⟩] := by
    simp [RealBox.drop, RealBox.dealloc_buffer, RealBox.current_layout,
      Layout.from_size_align_unchecked, h]
  refine ⟨h1, by simp [RealBox.current_layout, Layout.from_size_align_unchecked],
    ?_, ?_⟩ <;>
    simp [h1, Event.isDealloc, Event.isDropT, List.countP_cons, List.countP_nil]

/-- Claim C3, witness: a box for a 4-byte 4-aligned type holding address 16. -/
theorem C3_drop_exact_dealloc_witness :
    RealBox.drop ⟨4, 4⟩ ⟨16, noneAlloc⟩ = [Event.deallocCall 16 ⟨4, 4⟩] ∧
    RealBox.current_layout ⟨4, 4⟩ ⟨16, noneAlloc⟩ = some ⟨4, 4⟩ ∧
    (RealBox.drop ⟨4, 4⟩ ⟨16, noneAlloc⟩).countP Event.isDealloc = 1 ∧
    (RealBox.drop ⟨4, 4⟩ ⟨16, noneAlloc⟩).countP Event.isDropT = 0 :=
  C3_drop_exact_dealloc ⟨4, 4⟩ ⟨16, noneAlloc⟩ (by decide)

/-- Claim C4: for a non-zero-sized `T`, if the allocator reports failure on
the zeroed allocation request, construction terminates through
`handle_alloc_error` with the requested layout; on success it returns the
allocator's address, which is non-null under the allocator's non-null
success guarantee — a held-null box is not a possible result. -/
theorem C4_alloc_failure_fatal (t : Ty) (a : Allocator)
    (h0 : t.size ≠ 0)
    (hl : Layout.from_size_align t.size t.align = some ⟨t.size, t.align⟩)
    (hnn : ∀ l q, a.allocZeroedFn l = some q → 0 < q) :
    match a.allocZeroedFn ⟨t.size, t.align⟩ with
    | none => (RealBox.new_in t a).1 = Outcome.allocError ⟨t.size, t.align⟩
    | some p => (RealBox.new_in t a).1 = Outcome.ok ⟨p, a⟩ ∧ 0 < p := by
  cases hres : a.allocZeroedFn ⟨t.size, t.align⟩ with
  | none => simp [RealBox.new_in, RealBox.allocate_in, h0, hl, hres]
  | some p =>
    refine ⟨?_, hnn _ _ hres⟩
    simp [RealBox.new_in, RealBox.allocate_in, h0, hl, hres]

/-- Claim C4, witness: an always-failing allocator on a 4-byte type makes
construction end in `handle_alloc_error`. -/
theorem C4_alloc_failure_fatal_witness :
    (RealBox.new_in ⟨4, 4⟩ noneAlloc).1 = Outcome.allocError ⟨4, 4⟩ :=
  C4_alloc_failure_fatal ⟨4, 4⟩ noneAlloc (by decide) (by decide)
    (fun l q hq => by simp [noneAlloc] at hq)

/-- The concrete allocator `alloc44` satisfies the documented `Alloc`
success contract. -/
theorem alloc44_good : Allocator.Good alloc44 := by
  intro l q h
  rcases h with h | h
  · simp [alloc44] at h
  · by_cases he : l = ⟨4, 4⟩
    · subst he
      simp [alloc44] at h
      subst h
      decide
    · simp [alloc44, he] at h

/-- Claim C5: for a non-zero-sized `T`, successful construction stores the
allocator's returned address unchanged — non-null, aligned to
`align_of(T)`, distinct from the dangling sentinel — and the one layout
passed to the allocator is exactly `(size_of(T), align_of(T))`, a single
element. -/
theorem C5_nonzst_construction (t : Ty) (g : Allocator) (p : Nat)
    (h0 : t.size ≠ 0)
    (hl : Layout.from_size_align t.size t.align = some ⟨t.size, t.align⟩)
    (hg : Allocator.Good g)
    (hp : g.allocZeroedFn ⟨t.size, t.align⟩ = some p) :
    RealBox.new t g =
      (Outcome.ok ⟨p, g⟩, [Event.allocZeroedCall ⟨t.size, t.align⟩]) ∧
    p ≠ 0 ∧ p % t.align = 0 ∧ p ≠ danglingAddr t := by
  have hq := hg ⟨t.size, t.align⟩ p (Or.inr hp)
  refine ⟨?_, ?_, hq.2.1, ?_⟩
  · simp [RealBox.new, RealBox.new_in, RealBox.allocate_in, h0, hl, hp]
  · have := hq.1
    omega
  · simpa [danglingAddr] using hq.2.2

/-- Claim C5, witness at a 4-byte 4-aligned type with the allocator that
returns address 16. -/
theorem C5_nonzst_construction_witness :
    RealBox.new ⟨4, 4⟩ alloc44 =
      (Outcome.ok ⟨16, alloc44⟩, [Event.allocZeroedCall ⟨4, 4⟩]) ∧
    16 ≠ 0 ∧ 16 % 4 = 0 ∧ 16 ≠ danglingAddr ⟨4, 4⟩ :=
  C5_nonzst_construction ⟨4, 4⟩ alloc44 16 (by decide) (by decide)
    alloc44_good (by simp [alloc44])

/-- Claim C6: `heap_init` zero-allocates space for the value via the
default allocator, immediately converts the allocation into an owning
handle at the very same address with no further events, and the caller's
initializer then runs on the all-zero contents the zeroed allocation
guarantees, its output returned without any validation. -/
theorem C6_heap_init_steps (t : Ty) (g : Allocator) (p i : Nat)
    (ini : Image → Image)
    (h0 : t.size ≠ 0)
    (hl : Layout.from_size_align t.size t.align = some ⟨t.size, t.align⟩)
    (hp : g.allocZeroedFn ⟨t.size, t.align⟩ = some p) :
    RealBox.heap_init t g =
      (Outcome.ok ⟨p⟩, [Event.allocZeroedCall ⟨t.size, t.align⟩]) ∧
    zeroAll i = 0 ∧
    heap_init_image ini = ini zeroAll := by
  refine ⟨?_, rfl, rfl⟩
  have hnew : RealBox.new_in t g =
      (Outcome.ok ⟨p, g⟩, [Event.allocZeroedCall ⟨t.size, t.align⟩]) := by
    simp [RealBox.new_in, RealBox.allocate_in, h0, hl, hp]
  simp [RealBox.heap_init, hnew, RealBox.into_box]

/-- Claim C6, witness at a 4-byte 4-aligned type, allocation at 16, with
the initializer that writes byte 42 at offset 0. -/
theorem C6_heap_init_steps_witness :
    RealBox.heap_init ⟨4, 4⟩ alloc44 =
      (Outcome.ok ⟨16⟩, [Event.allocZeroedCall ⟨4, 4⟩]) ∧
    zeroAll 3 = 0 ∧
    heap_init_image (fun m => writeByte m 0 42) =
      (fun m => writeByte m 0 42) zeroAll :=
  C6_heap_init_steps ⟨4, 4⟩ alloc44 16 3 (fun m => writeByte m 0 42)
    (by decide) (by decide) (by simp [alloc44])

/-- Applying no writes leaves the image unchanged. -/
theorem applyWrites_nil (m : Image) : applyWrites [] m = m := rfl

/-- The head write lands first, the rest follow. -/
theorem applyWrites_cons (w : Nat × Nat) (ws : List (Nat × Nat)) (m : Image) :
    applyWrites (w :: ws) m = applyWrites ws (writeByte m w.1 w.2) := rfl

/-- A byte offset no write touches keeps its initial value. -/
theorem applyWrites_not_written (ws : List (Nat × Nat)) (m : Image) (i : Nat)
    (h : ∀ w ∈ ws, w.1 ≠ i) : applyWrites ws m i = m i := by
  induction ws generalizing m with
  | nil => rfl
  | cons w ws ih =>
    rw [applyWrites_cons, ih _ (fun v hv => h v (List.mem_cons_of_mem _ hv))]
    have hw : w.1 ≠ i := h w (List.mem_cons_self _ _)
    simp only [writeByte]
    rw [if_neg (Ne.symm hw)]

/-- A byte offset some write touches ends up identical whatever the
initial image was. -/
theorem applyWrites_written (ws : List (Nat × Nat)) (ma mb : Image) (i : Nat)
    (h : ∃ w ∈ ws, w.1 = i) :
    applyWrites ws ma i = applyWrites ws mb i := by
  induction ws generalizing ma mb with
  | nil => simp at h
  | cons w ws ih =>
    by_cases hc : ∃ v ∈ ws, v.1 = i
    · rw [applyWrites_cons, applyWrites_cons]
      exact ih _ _ hc
    · push_neg at hc
      have hw : w.1 = i := by
        rcases h with ⟨v, hv, hvi⟩
        rcases List.mem_cons.mp hv with rfl | hv2
        · exact hvi
        · exact absurd hvi (hc v hv2)
      rw [applyWrites_cons, applyWrites_cons,
        applyWrites_not_written ws _ i hc, applyWrites_not_written ws _ i hc]
      simp [writeByte, hw]

/-- Claim C7 is false as stated: for the 2-byte type whose initializer
writes only byte 0, byte 1 (within the type's size) of the heap image is 0
(zero-filled allocation) while the equivalent stack-resident value keeps
its slot's pre-existing byte there (here 9) — the images are not
byte-for-byte identical. -/
theorem C7_counterexample :
    1 < (⟨2, 1⟩ : Ty).size ∧
    heapImageOfWrites [(0, 42)] 1 ≠
      stackImageOfWrites [(0, 42)] (fun _ => 9) 1 :=
  ⟨by decide, by decide⟩

/-- Claim C7 (amended): when the initializer's byte writes cover every
byte offset of the type, the image produced by heap_init agrees with the
image of the equivalent stack-resident value at every byte offset of the
type — byte-for-byte identity holds exactly on the bytes the writes
reach. -/
theorem C7_amended_full_cover (t : Ty) (ws : List (Nat × Nat)) (pre : Image)
    (i : Nat) (hcov : coversB ws t.size = true) (hi : i < t.size) :
    heapImageOfWrites ws i = stackImageOfWrites ws pre i := by
  have hmem : ∃ w ∈ ws, w.1 = i := by
    have hall := List.all_eq_true.mp hcov i (List.mem_range.mpr hi)
    rcases List.any_eq_true.mp hall with ⟨w, hw, he⟩
    exact ⟨w, hw, by simpa using he⟩
  exact applyWrites_written ws zeroAll pre i hmem

/-- Claim C7 (amended), witness: a 2-byte type fully covered by two
writes agrees at byte 0 over a stack slot previously holding 9s. -/
theorem C7_amended_full_cover_witness :
    coversB [(0, 5), (1, 6)] (⟨2, 1⟩ : Ty).size = true ∧
    heapImageOfWrites [(0, 5), (1, 6)] 0 =
      stackImageOfWrites [(0, 5), (1, 6)] (fun _ => 9) 0 :=
  ⟨by decide,
    C7_amended_full_cover ⟨2, 1⟩ [(0, 5), (1, 6)] (fun _ => 9) 0
      (by decide) (by decide)⟩

/-- Claim C8: adopting a one-element heap buffer via from_box makes no
allocator call, stores the buffer's existing first-element address with
the default allocator, and teardown of the adopted box deallocates that
same address with the single-element layout — which coincides with the
layout the one-element buffer was allocated with. -/
theorem C8_from_box_adoption (t : Ty) (slice : RustBoxedSlice) (g : Allocator)
    (h0 : t.size ≠ 0) (h1 : slice.len = 1) :
    (RealBox.from_box slice g).2 = [] ∧
    (RealBox.from_box slice g).1 = ⟨slice.raw, g⟩ ∧
    RealBox.drop t (RealBox.from_box slice g).1 =
      [Event.deallocCall slice.raw ⟨t.size, t.align⟩] ∧
    sliceAllocLayout t slice.len = ⟨t.size, t.align⟩ := by
  refine ⟨rfl, rfl, ?_, ?_⟩
  · simp [RealBox.from_box, RealBox.from_raw_parts, RealBox.drop,
      RealBox.dealloc_buffer, RealBox.current_layout,
      Layout.from_size_align_unchecked, h0]
  · simp [sliceAllocLayout, h1]

/-- Claim C8, witness: a one-element buffer of a 4-byte type at address 32. -/
theorem C8_from_box_adoption_witness :
    (RealBox.from_box ⟨32, 1⟩ noneAlloc).2 = [] ∧
    (RealBox.from_box ⟨32, 1⟩ noneAlloc).1 = ⟨32, noneAlloc⟩ ∧
    RealBox.drop ⟨4, 4⟩ (RealBox.from_box ⟨32, 1⟩ noneAlloc).1 =
      [Event.deallocCall 32 ⟨4, 4⟩] ∧
    sliceAllocLayout ⟨4, 4⟩ (⟨32, 1⟩ : RustBoxedSlice).len = ⟨4, 4⟩ :=
  C8_from_box_adoption ⟨4, 4⟩ ⟨32, 1⟩ noneAlloc (by decide) rfl

/-- allocate_in with the zeroed flag set never issues a plain (non-zeroed)
alloc event, whatever the type and the allocator's response. -/
theorem allocate_in_zeroed_trace (t : Ty) (a : Allocator) :
    ((RealBox.allocate_in t true a).2.all fun e => !Event.isPlainAlloc e) = true := by
  by_cases h : t.size = 0
  · simp [RealBox.allocate_in, h]
  · cases hl : Layout.from_size_align t.size t.align with
    | none => simp [RealBox.allocate_in, h, hl]
    | some layout =>
      cases hz : a.allocZeroedFn layout with
      | none => simp [RealBox.allocate_in, h, hl, hz, Event.isPlainAlloc]
      | some p => simp [RealBox.allocate_in, h, hl, hz, Event.isPlainAlloc]

/-- The heap_init trace is exactly the construction trace: the conversion
step contributes no events. -/
theorem heap_init_trace (t : Ty) (g : Allocator) :
    (RealBox.heap_init t g).2 = (RealBox.new_in t g).2 := by
  rcases hn : RealBox.new_in t g with ⟨out, es⟩
  cases out <;> simp [RealBox.heap_init, hn, RealBox.into_box]

/-- Claim C9: every public allocating construction path (new,
new_with_allocator, and the construction inside heap_init) goes through
new_in, which is allocate_in with the zeroed flag set, so the only
allocation operation any of them can issue is alloc_zeroed — the
non-zeroed alloc branch never fires from the public interface. -/
theorem C9_public_paths_zeroed (t : Ty) (a g : Allocator) :
    RealBox.new t g = RealBox.new_in t g ∧
    RealBox.new_with_allocator t a = RealBox.new_in t a ∧
    RealBox.new_in t a = RealBox.allocate_in t true a ∧
    ((RealBox.allocate_in t true a).2.all fun e => !Event.isPlainAlloc e) = true ∧
    ((RealBox.heap_init t g).2.all fun e => !Event.isPlainAlloc e) = true := by
  refine ⟨rfl, rfl, rfl, allocate_in_zeroed_trace t a, ?_⟩
  rw [heap_init_trace]
  exact allocate_in_zeroed_trace t g

/-- Claim C10: from_box accepts a buffer of any element count with no
runtime check, stores its first-element address, and teardown always uses
the single-element layout: the deallocation events for two adopted buffers
at the same address are identical whatever their element counts were. -/
theorem C10_from_box_any_len (t : Ty) (g : Allocator) (slice : RustBoxedSlice)
    (r n1 n2 : Nat) :
    RealBox.from_box slice g = (⟨slice.raw, g⟩, []) ∧
    RealBox.drop t (RealBox.from_box slice g).1 =
      (if t.size = 0 then []
       else [Event.deallocCall slice.raw ⟨t.size, t.align⟩]) ∧
    RealBox.drop t (RealBox.from_box ⟨r, n1⟩ g).1 =
      RealBox.drop t (RealBox.from_box ⟨r, n2⟩ g).1 := by
  refine ⟨rfl, ?_, rfl⟩
  by_cases h : t.size = 0
  · simp [RealBox.from_box, RealBox.from_raw_parts, RealBox.drop,
      RealBox.dealloc_buffer, h]
  · simp [RealBox.from_box, RealBox.from_raw_parts, RealBox.drop,
      RealBox.dealloc_buffer, RealBox.current_layout,
      Layout.from_size_align_unchecked, h]

end Realbox
